import Mathlib

/-!
Shallow embedding of the playwright-bdd scenario lifecycle manager:
the Cucumber `Before`/`After` hooks of `support/hooks.js` and the
`CustomWorld` class of `support/world.js`. Browser-driver operations
(launch, newContext, newPage, screenshot, attach, close, goto) are
external collaborators; their outcomes are supplied by a `Driver`
record of result functions, and the hooks are modelled as pure
functions producing an event trace, the updated world, and an
optional uncaught error (a thrown JS exception that escapes the hook).
-/

namespace PlaywrightBdd

/-- Binary screenshot data (the JS `Buffer`). -/
abbrev Buffer := List Nat

/-- A thrown JS error, identified by its message string. -/
abbrev Err := String

/-- A playwright browser process handle; `closed` is the driver-side state. -/
structure BrowserHandle where
  closed : Bool
  deriving DecidableEq

/-- A playwright browser context (isolated session) handle. -/
structure ContextHandle where
  closed : Bool
  deriving DecidableEq

/-- A playwright page handle. -/
structure PageHandle where
  closed : Bool
  deriving DecidableEq

/-- The scenario's pickle (just the name is used by the hooks). -/
structure Pickle where
  name : String
  deriving DecidableEq

/-- The scenario result record; cucumber's status stringifies to e.g. "PASSED"/"FAILED". -/
structure ScenarioResult where
  status : String
  deriving DecidableEq

/-- The scenario object passed to the hooks; `result` may be absent. -/
structure Scenario where
  pickle : Pickle
  result : Option ScenarioResult
  deriving DecidableEq

/-- `support/world.js`: the CustomWorld, holding the browser/context/page
handles and whether the cucumber attach capability is set. -/
structure CustomWorld where
  browser : Option BrowserHandle
  context : Option ContextHandle
  page : Option PageHandle
  attach : Bool
  deriving DecidableEq

/-- Observable calls the hooks make into the driver / report. -/
inductive Event where
  | launch (browserName : String) (headless : Bool)
  | screenshot (fullPage : Bool)
  | attach (buffer : Buffer) (mediaType : String)
  | closePage
  | closeContext
  | closeBrowser
  deriving DecidableEq

/-- Outcomes of the external playwright / cucumber operations. -/
structure Driver where
  launchResult : String → Bool → Except Err BrowserHandle
  newContextResult : BrowserHandle → Except Err ContextHandle
  newPageResult : ContextHandle → Except Err PageHandle
  screenshotResult : PageHandle → Bool → Except Err Buffer
  attachResult : Buffer → String → Except Err Unit
  pageCloseResult : PageHandle → Except Err Unit
  contextCloseResult : ContextHandle → Except Err Unit
  browserCloseResult : BrowserHandle → Except Err Unit
  gotoResult : PageHandle → String → Except Err Unit
  waitForLoadStateResult : PageHandle → String → Nat → Except Err Unit

/-- The process environment variables read by the Before hook. -/
structure Env where
  BROWSER : Option String
  HEADLESS : Option String
  deriving DecidableEq

/-- `process.env.BROWSER || 'chromium'` (JS `||`: the empty string is falsy). -/
def browserNameOf (env : Env) : String :=
  match env.BROWSER with
  | none => "chromium"
  | some s => if s = "" then "chromium" else s

/-- `process.env.HEADLESS === 'true'`: headless only when the variable is the
exact string "true"; absent or any other string resolves to headed. -/
def headlessOf (env : Env) : Bool :=
  env.HEADLESS == some "true"

/-- ASCII model of JS `String.prototype.toLowerCase`. -/
def lowerString (s : String) : String :=
  String.mk (s.data.map Char.toLower)

/-- The After hook's guard:
`scenario.result && String(scenario.result.status).toLowerCase() === 'failed'`. -/
def shouldCapture (result : Option ScenarioResult) : Bool :=
  match result with
  | none => false
  | some r => lowerString r.status == "failed"

/-- `support/world.js`: the CustomWorld constructor — all three handles start
null; the attach capability is taken from the constructor argument. -/
def CustomWorld.construct (attach : Bool) : CustomWorld :=
  { browser := none, context := none, page := none, attach := attach }

/-- `support/world.js` `takeAndAttachScreenshot`: throw "No page available on
World" when the page handle is null; otherwise screenshot with
`fullPage: true`; if the attach capability is set, attach the buffer with
media type "image/png"; return the buffer. Returns the trace of driver
calls and either the buffer or the escaped error. -/
def CustomWorld.takeAndAttachScreenshot (w : CustomWorld) (d : Driver)
    (name : String) : List Event × Except Err Buffer :=
  match w.page with
  | none => ([], Except.error "No page available on World")
  | some p =>
    match d.screenshotResult p true with
    | Except.error e => ([Event.screenshot true], Except.error e)
    | Except.ok buffer =>
      if w.attach then
        match d.attachResult buffer "image/png" with
        | Except.error e =>
          ([Event.screenshot true, Event.attach buffer "image/png"], Except.error e)
        | Except.ok _ =>
          ([Event.screenshot true, Event.attach buffer "image/png"], Except.ok buffer)
      else ([Event.screenshot true], Except.ok buffer)

/-- `support/world.js` `goto`: throw "No page available on World" when the
page handle is null; otherwise `page.goto(url)` then
`page.waitForLoadState('load', { timeout: 10000 })`. -/
def CustomWorld.goto (w : CustomWorld) (d : Driver) (url : String) :
    Except Err Unit :=
  match w.page with
  | none => Except.error "No page available on World"
  | some p =>
    match d.gotoResult p url with
    | Except.error e => Except.error e
    | Except.ok _ => d.waitForLoadStateResult p "load" 10000

/-- `support/hooks.js` Before hook: resolve browser name and headless flag
from the environment, launch, open a context, open a page, assigning each
handle onto the world as it is produced (so a mid-way throw leaves the
earlier handles set). `this.attach = this.attach` is the identity. -/
def Before (d : Driver) (env : Env) (w : CustomWorld) :
    List Event × CustomWorld × Option Err :=
  let browserName := browserNameOf env
  let headless := headlessOf env
  let evs := [Event.launch browserName headless]
  match d.launchResult browserName headless with
  | Except.error e => (evs, w, some e)
  | Except.ok b =>
    let w1 := { w with browser := some b }
    match d.newContextResult b with
    | Except.error e => (evs, w1, some e)
    | Except.ok c =>
      let w2 := { w1 with context := some c }
      match d.newPageResult c with
      | Except.error e => (evs, w2, some e)
      | Except.ok p => (evs, { w2 with page := some p }, none)

/-- `if (this.page) await this.page.close();` — skipped when the handle is
null; a throw from `close()` escapes; a successful close marks the driver-side
handle closed (the world still references it). -/
def closePageStep (d : Driver) (w : CustomWorld) :
    List Event × CustomWorld × Option Err :=
  match w.page with
  | none => ([], w, none)
  | some p =>
    match d.pageCloseResult p with
    | Except.error e => ([Event.closePage], w, some e)
    | Except.ok _ =>
      ([Event.closePage], { w with page := some { p with closed := true } }, none)

/-- `if (this.context) await this.context.close();` then
`if (this.browser) await this.browser.close();` — the tail of the release
sequence, starting from the context close. -/
def closeContextStep (d : Driver) (w : CustomWorld) :
    List Event × CustomWorld × Option Err :=
  match w.context with
  | none => ([], w, none)
  | some c =>
    match d.contextCloseResult c with
    | Except.error e => ([Event.closeContext], w, some e)
    | Except.ok _ =>
      ([Event.closeContext], { w with context := some { c with closed := true } }, none)

/-- `if (this.browser) await this.browser.close();`. -/
def closeBrowserStep (d : Driver) (w : CustomWorld) :
    List Event × CustomWorld × Option Err :=
  match w.browser with
  | none => ([], w, none)
  | some b =>
    match d.browserCloseResult b with
    | Except.error e => ([Event.closeBrowser], w, some e)
    | Except.ok _ =>
      ([Event.closeBrowser], { w with browser := some { b with closed := true } }, none)

/-- The release section of the After hook: the three close lines run in
sequence (page, context, browser); an uncaught throw from one aborts the
rest, since the source has no try/catch around them. -/
def closeResources (d : Driver) (w : CustomWorld) :
    List Event × CustomWorld × Option Err :=
  let s1 := closePageStep d w
  match s1.2.2 with
  | some e => (s1.1, s1.2.1, some e)
  | none =>
    let s2 := closeContextStep d s1.2.1
    match s2.2.2 with
    | some e => (s1.1 ++ s2.1, s2.2.1, some e)
    | none =>
      let s3 := closeBrowserStep d s2.2.1
      (s1.1 ++ s2.1 ++ s3.1, s3.2.1, s3.2.2)

/-- `support/hooks.js` After hook: when the guard holds, call
`takeAndAttachScreenshot` (un-guarded: its throw escapes the hook and the
release section never runs); then the three guarded-by-null close lines. -/
def After (d : Driver) (s : Scenario) (w : CustomWorld) :
    List Event × CustomWorld × Option Err :=
  if shouldCapture s.result then
    let cap := w.takeAndAttachScreenshot d (s.pickle.name ++ "-failure-screenshot.png")
    match cap.2 with
    | Except.error e => (cap.1, w, some e)
    | Except.ok _ =>
      let rel := closeResources d w
      (cap.1 ++ rel.1, rel.2.1, rel.2.2)
  else closeResources d w

/-- Recognizes report-attachment events in a trace. -/
def isAttachEvent : Event → Bool
  | Event.attach _ _ => true
  | _ => false

/-- Number of report attachments in a trace. -/
def attachCount (evs : List Event) : Nat :=
  evs.countP isAttachEvent

/-! ### Concrete fixtures for witnesses and counterexamples -/

/-- An open page handle. -/
def openPage : PageHandle := { closed := false }

/-- An already-closed page handle. -/
def closedPage : PageHandle := { closed := true }

/-- An open context handle. -/
def openCtx : ContextHandle := { closed := false }

/-- An open browser handle. -/
def openBr : BrowserHandle := { closed := false }

/-- A world mid-scenario: all three handles live, attach capability set. -/
def liveWorld : CustomWorld :=
  { browser := some openBr, context := some openCtx, page := some openPage,
    attach := true }

/-- Like `liveWorld` but with no attach capability. -/
def liveWorldNoAttach : CustomWorld :=
  { browser := some openBr, context := some openCtx, page := some openPage,
    attach := false }

/-- A world whose page was already closed (e.g. by a step or a crash). -/
def closedPageWorld : CustomWorld :=
  { browser := some openBr, context := some openCtx, page := some closedPage,
    attach := true }

/-- A freshly constructed world: no handle was ever established. -/
def emptyWorld : CustomWorld := CustomWorld.construct true

/-- A scenario whose result status stringifies to "FAILED". -/
def failedScenario : Scenario :=
  { pickle := { name := "login" }, result := some { status := "FAILED" } }

/-- A scenario whose result status stringifies to "PASSED". -/
def passedScenario : Scenario :=
  { pickle := { name := "login" }, result := some { status := "PASSED" } }

/-- A scenario whose result record is absent. -/
def noResultScenario : Scenario :=
  { pickle := { name := "login" }, result := none }

/-- A driver where every operation succeeds; screenshots yield `[7]`. -/
def okDriver : Driver :=
  { launchResult := fun _ _ => Except.ok openBr
    newContextResult := fun _ => Except.ok openCtx
    newPageResult := fun _ => Except.ok openPage
    screenshotResult := fun _ _ => Except.ok [7]
    attachResult := fun _ _ => Except.ok ()
    pageCloseResult := fun _ => Except.ok ()
    contextCloseResult := fun _ => Except.ok ()
    browserCloseResult := fun _ => Except.ok ()
    gotoResult := fun _ _ => Except.ok ()
    waitForLoadStateResult := fun _ _ _ => Except.ok () }

/-- A realistic driver: operations on a closed page throw, closing an
already-closed page throws, everything else succeeds. -/
def errDriver : Driver :=
  { launchResult := fun _ _ => Except.ok openBr
    newContextResult := fun _ => Except.ok openCtx
    newPageResult := fun _ => Except.ok openPage
    screenshotResult := fun p _ =>
      if p.closed then Except.error "page closed" else Except.ok [7]
    attachResult := fun _ _ => Except.ok ()
    pageCloseResult := fun p =>
      if p.closed then Except.error "page already closed" else Except.ok ()
    contextCloseResult := fun _ => Except.ok ()
    browserCloseResult := fun _ => Except.ok ()
    gotoResult := fun p _ =>
      if p.closed then Except.error "page closed" else Except.ok ()
    waitForLoadStateResult := fun _ _ _ => Except.ok () }

/-! ### Helper lemmas -/

theorem closePageStep_of_none (d : Driver) (w : CustomWorld) (h : w.page = none) :
    closePageStep d w = ([], w, none) := by
  simp only [closePageStep, h]

theorem closeContextStep_of_none (d : Driver) (w : CustomWorld) (h : w.context = none) :
    closeContextStep d w = ([], w, none) := by
  simp only [closeContextStep, h]

theorem closeBrowserStep_of_none (d : Driver) (w : CustomWorld) (h : w.browser = none) :
    closeBrowserStep d w = ([], w, none) := by
  simp only [closeBrowserStep, h]

theorem closePageStep_sublist (d : Driver) (w : CustomWorld) :
    (closePageStep d w).1.Sublist [Event.closePage] := by
  cases h : w.page with
  | none => simp only [closePageStep, h]; exact List.nil_sublist _
  | some p =>
    cases hr : d.pageCloseResult p with
    | error e => simp only [closePageStep, h, hr]; exact List.Sublist.refl _
    | ok u => simp only [closePageStep, h, hr]; exact List.Sublist.refl _

theorem closeContextStep_sublist (d : Driver) (w : CustomWorld) :
    (closeContextStep d w).1.Sublist [Event.closeContext] := by
  cases h : w.context with
  | none => simp only [closeContextStep, h]; exact List.nil_sublist _
  | some c =>
    cases hr : d.contextCloseResult c with
    | error e => simp only [closeContextStep, h, hr]; exact List.Sublist.refl _
    | ok u => simp only [closeContextStep, h, hr]; exact List.Sublist.refl _

theorem closeBrowserStep_sublist (d : Driver) (w : CustomWorld) :
    (closeBrowserStep d w).1.Sublist [Event.closeBrowser] := by
  cases h : w.browser with
  | none => simp only [closeBrowserStep, h]; exact List.nil_sublist _
  | some b =>
    cases hr : d.browserCloseResult b with
    | error e => simp only [closeBrowserStep, h, hr]; exact List.Sublist.refl _
    | ok u => simp only [closeBrowserStep, h, hr]; exact List.Sublist.refl _

theorem closePageStep_context (d : Driver) (w : CustomWorld) :
    (closePageStep d w).2.1.context = w.context := by
  cases h : w.page with
  | none => simp only [closePageStep, h]
  | some p =>
    cases hr : d.pageCloseResult p with
    | error e => simp only [closePageStep, h, hr]
    | ok u => simp only [closePageStep, h, hr]

theorem closePageStep_browser (d : Driver) (w : CustomWorld) :
    (closePageStep d w).2.1.browser = w.browser := by
  cases h : w.page with
  | none => simp only [closePageStep, h]
  | some p =>
    cases hr : d.pageCloseResult p with
    | error e => simp only [closePageStep, h, hr]
    | ok u => simp only [closePageStep, h, hr]

theorem closeContextStep_page (d : Driver) (w : CustomWorld) :
    (closeContextStep d w).2.1.page = w.page := by
  cases h : w.context with
  | none => simp only [closeContextStep, h]
  | some c =>
    cases hr : d.contextCloseResult c with
    | error e => simp only [closeContextStep, h, hr]
    | ok u => simp only [closeContextStep, h, hr]

theorem closeContextStep_browser (d : Driver) (w : CustomWorld) :
    (closeContextStep d w).2.1.browser = w.browser := by
  cases h : w.context with
  | none => simp only [closeContextStep, h]
  | some c =>
    cases hr : d.contextCloseResult c with
    | error e => simp only [closeContextStep, h, hr]
    | ok u => simp only [closeContextStep, h, hr]

theorem closeBrowserStep_page (d : Driver) (w : CustomWorld) :
    (closeBrowserStep d w).2.1.page = w.page := by
  cases h : w.browser with
  | none => simp only [closeBrowserStep, h]
  | some b =>
    cases hr : d.browserCloseResult b with
    | error e => simp only [closeBrowserStep, h, hr]
    | ok u => simp only [closeBrowserStep, h, hr]

theorem closeResources_eq_abort1 (d : Driver) (w : CustomWorld) (e : Err)
    (h : (closePageStep d w).2.2 = some e) :
    closeResources d w = ((closePageStep d w).1, (closePageStep d w).2.1, some e) := by
  simp only [closeResources, h]

theorem closeResources_eq_abort2 (d : Driver) (w : CustomWorld) (e : Err)
    (h1 : (closePageStep d w).2.2 = none)
    (h2 : (closeContextStep d (closePageStep d w).2.1).2.2 = some e) :
    closeResources d w =
      ((closePageStep d w).1 ++ (closeContextStep d (closePageStep d w).2.1).1,
       (closeContextStep d (closePageStep d w).2.1).2.1, some e) := by
  simp only [closeResources, h1, h2]

theorem closeResources_eq_full (d : Driver) (w : CustomWorld)
    (h1 : (closePageStep d w).2.2 = none)
    (h2 : (closeContextStep d (closePageStep d w).2.1).2.2 = none) :
    closeResources d w =
      ((closePageStep d w).1 ++ (closeContextStep d (closePageStep d w).2.1).1 ++
        (closeBrowserStep d (closeContextStep d (closePageStep d w).2.1).2.1).1,
       (closeBrowserStep d (closeContextStep d (closePageStep d w).2.1).2.1).2.1,
       (closeBrowserStep d (closeContextStep d (closePageStep d w).2.1).2.1).2.2) := by
  simp only [closeResources, h1, h2]

theorem closeResources_decomp (d : Driver) (w : CustomWorld) :
    ∃ t1 t2 t3, (closeResources d w).1 = t1 ++ t2 ++ t3 ∧
      t1.Sublist [Event.closePage] ∧ t2.Sublist [Event.closeContext] ∧
      t3.Sublist [Event.closeBrowser] ∧
      (w.page = none → t1 = []) ∧ (w.context = none → t2 = []) ∧
      (w.browser = none → t3 = []) := by
  cases h1 : (closePageStep d w).2.2 with
  | some e =>
    rw [closeResources_eq_abort1 d w e h1]
    exact ⟨(closePageStep d w).1, [], [], by simp, closePageStep_sublist d w,
      List.nil_sublist _, List.nil_sublist _,
      fun hp => by rw [closePageStep_of_none d w hp],
      fun _ => rfl, fun _ => rfl⟩
  | none =>
    cases h2 : (closeContextStep d (closePageStep d w).2.1).2.2 with
    | some e =>
      rw [closeResources_eq_abort2 d w e h1 h2]
      refine ⟨(closePageStep d w).1, (closeContextStep d (closePageStep d w).2.1).1,
        [], by simp, closePageStep_sublist d w, closeContextStep_sublist d _,
        List.nil_sublist _,
        fun hp => by rw [closePageStep_of_none d w hp],
        fun hc => ?_, fun _ => rfl⟩
      have hc2 : (closePageStep d w).2.1.context = none := by
        rw [closePageStep_context]; exact hc
      rw [closeContextStep_of_none d _ hc2]
    | none =>
      rw [closeResources_eq_full d w h1 h2]
      refine ⟨(closePageStep d w).1, (closeContextStep d (closePageStep d w).2.1).1,
        (closeBrowserStep d (closeContextStep d (closePageStep d w).2.1).2.1).1,
        rfl, closePageStep_sublist d w, closeContextStep_sublist d _,
        closeBrowserStep_sublist d _,
        fun hp => by rw [closePageStep_of_none d w hp],
        fun hc => ?_, fun hb => ?_⟩
      · have hc2 : (closePageStep d w).2.1.context = none := by
          rw [closePageStep_context]; exact hc
        rw [closeContextStep_of_none d _ hc2]
      · have hb2 : (closeContextStep d (closePageStep d w).2.1).2.1.browser = none := by
          rw [closeContextStep_browser, closePageStep_browser]; exact hb
        rw [closeBrowserStep_of_none d _ hb2]

theorem closeResources_sublist (d : Driver) (w : CustomWorld) :
    (closeResources d w).1.Sublist
      [Event.closePage, Event.closeContext, Event.closeBrowser] := by
  obtain ⟨t1, t2, t3, heq, s1, s2, s3, -, -, -⟩ := closeResources_decomp d w
  rw [heq]
  exact (s1.append s2).append s3

theorem closeResources_attachCount (d : Driver) (w : CustomWorld) :
    attachCount (closeResources d w).1 = 0 := by
  have h := (closeResources_sublist d w).countP_le isAttachEvent
  have h0 : List.countP isAttachEvent
      [Event.closePage, Event.closeContext, Event.closeBrowser] = 0 := rfl
  rw [h0] at h
  exact Nat.le_zero.mp h

theorem closeResources_of_all_none (d : Driver) (w : CustomWorld)
    (hp : w.page = none) (hc : w.context = none) (hb : w.browser = none) :
    closeResources d w = ([], w, none) := by
  simp [closeResources, closePageStep_of_none d w hp,
    closeContextStep_of_none d w hc, closeBrowserStep_of_none d w hb]

theorem After_of_not_failed (d : Driver) (s : Scenario) (w : CustomWorld)
    (h : shouldCapture s.result = false) :
    After d s w = closeResources d w := by
  simp [After, h]

theorem After_of_capture_error (d : Driver) (s : Scenario) (w : CustomWorld) (e : Err)
    (hcap : shouldCapture s.result = true)
    (herr :
      (w.takeAndAttachScreenshot d (s.pickle.name ++ "-failure-screenshot.png")).2 =
        Except.error e) :
    After d s w =
      ((w.takeAndAttachScreenshot d (s.pickle.name ++ "-failure-screenshot.png")).1,
       w, some e) := by
  simp [After, hcap, herr]

theorem After_of_capture_ok (d : Driver) (s : Scenario) (w : CustomWorld) (buf : Buffer)
    (hcap : shouldCapture s.result = true)
    (hok :
      (w.takeAndAttachScreenshot d (s.pickle.name ++ "-failure-screenshot.png")).2 =
        Except.ok buf) :
    After d s w =
      ((w.takeAndAttachScreenshot d (s.pickle.name ++ "-failure-screenshot.png")).1 ++
        (closeResources d w).1,
       (closeResources d w).2.1, (closeResources d w).2.2) := by
  simp [After, hcap, hok]

theorem takeAndAttachScreenshot_of_none (d : Driver) (w : CustomWorld) (name : String)
    (hp : w.page = none) :
    w.takeAndAttachScreenshot d name =
      ([], Except.error "No page available on World") := by
  simp only [CustomWorld.takeAndAttachScreenshot, hp]

theorem takeAndAttachScreenshot_of_shot_error (d : Driver) (w : CustomWorld)
    (p : PageHandle) (e : Err) (name : String) (hp : w.page = some p)
    (hshot : d.screenshotResult p true = Except.error e) :
    w.takeAndAttachScreenshot d name = ([Event.screenshot true], Except.error e) := by
  simp only [CustomWorld.takeAndAttachScreenshot, hp, hshot]

theorem takeAndAttachScreenshot_ok_with_attach (d : Driver) (w : CustomWorld)
    (p : PageHandle) (buf : Buffer) (name : String) (hp : w.page = some p)
    (ha : w.attach = true) (hshot : d.screenshotResult p true = Except.ok buf)
    (hatt : d.attachResult buf "image/png" = Except.ok ()) :
    w.takeAndAttachScreenshot d name =
      ([Event.screenshot true, Event.attach buf "image/png"], Except.ok buf) := by
  simp [CustomWorld.takeAndAttachScreenshot, hp, hshot, ha, hatt]

theorem takeAndAttachScreenshot_ok_without_attach (d : Driver) (w : CustomWorld)
    (p : PageHandle) (buf : Buffer) (name : String) (hp : w.page = some p)
    (ha : w.attach = false) (hshot : d.screenshotResult p true = Except.ok buf) :
    w.takeAndAttachScreenshot d name = ([Event.screenshot true], Except.ok buf) := by
  simp [CustomWorld.takeAndAttachScreenshot, hp, hshot, ha]

/-! ### Claims -/

/-- Claim C1: the claim states that a failure during screenshot capture or
attachment in the evidence branch is caught inside teardown and never
propagates out of the After hook. The After hook in `support/hooks.js` has no
try/catch around `takeAndAttachScreenshot`: at a failed scenario whose page
is already closed, the capture throw escapes the After hook (teardown ends
with an uncaught error) and the resource releases are skipped. -/
theorem c1_capture_failure_escapes_after :
    (After errDriver failedScenario closedPageWorld).2.2 = some "page closed" ∧
    Event.closePage ∉ (After errDriver failedScenario closedPageWorld).1 := by
  decide

/-- Claim C2: the claim states that each of the three releases is
independently guarded so that a failure releasing one resource does not
prevent the others and is not surfaced. The close lines in `support/hooks.js`
are guarded only by null checks, not try/catch: when closing the page throws,
the After hook ends with that uncaught error and the context and browser
closes are never attempted, even though both handles are live. -/
theorem c2_release_failure_blocks_remaining_releases :
    (After errDriver passedScenario closedPageWorld).1 = [Event.closePage] ∧
    (After errDriver passedScenario closedPageWorld).2.2 =
      some "page already closed" ∧
    closedPageWorld.context = some openCtx ∧
    closedPageWorld.browser = some openBr ∧
    Event.closeContext ∉ (After errDriver passedScenario closedPageWorld).1 ∧
    Event.closeBrowser ∉ (After errDriver passedScenario closedPageWorld).1 := by
  decide

/-- Claim C3: the claim states the resolved headless value is true for every
environment in which the HEADLESS variable is absent. The source computes
`process.env.HEADLESS === 'true'`, so an absent HEADLESS resolves to false
and the browser is launched headed, contradicting the claim (and the
repository's own README, which documents headless-by-default). -/
theorem c3_unset_headless_launches_headed :
    headlessOf { BROWSER := none, HEADLESS := none } = false ∧
    (Before errDriver { BROWSER := none, HEADLESS := none }
        (CustomWorld.construct true)).1 = [Event.launch "chromium" false] := by
  decide

/-- Claim C4: teardown attaches a screenshot artifact if and only if the
scenario's result status is failed — exactly one image attachment when the
status is failed and the page is usable (screenshot and attach succeed,
attach capability set), and zero attachments for any non-failed guard
outcome. -/
theorem c4_attachment_iff_failed (d : Driver) (s : Scenario) (w : CustomWorld)
    (p : PageHandle) (buf : Buffer) (hp : w.page = some p) (ha : w.attach = true)
    (hshot : d.screenshotResult p true = Except.ok buf)
    (hatt : d.attachResult buf "image/png" = Except.ok ()) :
    (shouldCapture s.result = true → attachCount (After d s w).1 = 1) ∧
    (shouldCapture s.result = false → attachCount (After d s w).1 = 0) := by
  constructor
  · intro hcap
    have hx := takeAndAttachScreenshot_ok_with_attach d w p buf
      (s.pickle.name ++ "-failure-screenshot.png") hp ha hshot hatt
    rw [After_of_capture_ok d s w buf hcap (by rw [hx])]
    have hz := closeResources_attachCount d w
    simp only [attachCount, List.countP_append] at hz ⊢
    rw [hx, hz]
    rfl
  · intro hcap
    rw [After_of_not_failed d s w hcap]
    exact closeResources_attachCount d w

/-- Witness for C4 at a concrete failed and a concrete passed scenario. -/
theorem c4_attachment_iff_failed_witness :
    attachCount (After okDriver failedScenario liveWorld).1 = 1 ∧
    attachCount (After okDriver passedScenario liveWorld).1 = 0 :=
  ⟨(c4_attachment_iff_failed okDriver failedScenario liveWorld openPage [7]
      rfl rfl rfl rfl).1 (by decide),
   (c4_attachment_iff_failed okDriver passedScenario liveWorld openPage [7]
      rfl rfl rfl rfl).2 (by decide)⟩

theorem closePageStep_of_ok (d : Driver) (w : CustomWorld) (p : PageHandle)
    (hp : w.page = some p) (hclose : d.pageCloseResult p = Except.ok ()) :
    closePageStep d w =
      ([Event.closePage], { w with page := some { p with closed := true } }, none) := by
  simp only [closePageStep, hp, hclose]

theorem closeResources_page_closed (d : Driver) (w : CustomWorld) (p : PageHandle)
    (hp : w.page = some p) (hclose : d.pageCloseResult p = Except.ok ()) :
    (closeResources d w).2.1.page = some { p with closed := true } := by
  have hps := closePageStep_of_ok d w p hp hclose
  have h1 : (closePageStep d w).2.2 = none := by rw [hps]
  cases h2 : (closeContextStep d (closePageStep d w).2.1).2.2 with
  | some e =>
    rw [closeResources_eq_abort2 d w e h1 h2, closeContextStep_page, hps]
  | none =>
    rw [closeResources_eq_full d w h1 h2, closeBrowserStep_page,
      closeContextStep_page, hps]

/-- Claim C5, counterexample: the claim states that after teardown any
further use raises the clear "no page/session/browser available" condition.
But the After hook never nulls the world's fields, so after a completed
teardown the page handle is still non-null; a further
`takeAndAttachScreenshot` bypasses the null-check and raises the driver's
closed-page error instead of the world's "No page available on World" error. -/
theorem c5_further_use_not_no_page_error :
    (After errDriver passedScenario liveWorld).2.2 = none ∧
    (After errDriver passedScenario liveWorld).2.1.page ≠ none ∧
    ((After errDriver passedScenario liveWorld).2.1.takeAndAttachScreenshot
        errDriver "screenshot.png").2 = Except.error "page closed" ∧
    "page closed" ≠ "No page available on World" :=
  ⟨rfl, by decide, rfl, by decide⟩

/-- Claim C5, amended: after a teardown whose page close succeeded, the
world's page field still holds the (now closed) handle, so further use does
not silently succeed but raises the driver-level closed-page error, not the
world's "No page available on World" condition. -/
theorem c5_teardown_leaves_handles_set (d : Driver) (s : Scenario)
    (w : CustomWorld) (p : PageHandle) (hp : w.page = some p)
    (hcap : shouldCapture s.result = false)
    (hclose : d.pageCloseResult p = Except.ok ()) :
    (After d s w).2.1.page = some { p with closed := true } ∧
    ∀ e : Err, d.screenshotResult { p with closed := true } true = Except.error e →
      ((After d s w).2.1.takeAndAttachScreenshot d "screenshot.png").2 =
          Except.error e ∧
      (e ≠ "No page available on World" →
        ((After d s w).2.1.takeAndAttachScreenshot d "screenshot.png").2 ≠
          Except.error "No page available on World") := by
  have hAfter := After_of_not_failed d s w hcap
  have hpage : (After d s w).2.1.page = some { p with closed := true } := by
    rw [hAfter]
    exact closeResources_page_closed d w p hp hclose
  refine ⟨hpage, fun e he => ?_⟩
  have heq :
      ((After d s w).2.1.takeAndAttachScreenshot d "screenshot.png").2 =
        Except.error e := by
    rw [takeAndAttachScreenshot_of_shot_error d _ _ e _ hpage he]
  refine ⟨heq, fun hne hcontra => ?_⟩
  rw [heq] at hcontra
  injection hcontra with hstr
  exact hne hstr

/-- Witness for the amended C5 at a concrete teardown. -/
theorem c5_teardown_leaves_handles_set_witness :
    (After errDriver passedScenario liveWorld).2.1.page = some closedPage ∧
    ((After errDriver passedScenario liveWorld).2.1.takeAndAttachScreenshot
        errDriver "screenshot.png").2 = Except.error "page closed" := by
  have h := c5_teardown_leaves_handles_set errDriver passedScenario liveWorld
    openPage rfl (by decide) rfl
  exact ⟨h.1, (h.2 "page closed" rfl).1⟩

/-- Claim C6, counterexample: the claim says each release is a no-op
performed without raising when the handle is null, including the case where
setup failed before creating any handle. But a setup failure makes the
scenario's status failed, so at teardown the guard is true and the
un-guarded capture throws "No page available on World" on the null page:
the After hook raises and performs zero releases, instead of running the
three raise-free no-op releases the claim describes. -/
theorem c6_setup_failed_teardown_raises :
    emptyWorld.page = none ∧ emptyWorld.context = none ∧
    emptyWorld.browser = none ∧
    (After errDriver failedScenario emptyWorld).2.2 =
      some "No page available on World" ∧
    (After errDriver failedScenario emptyWorld).1 = [] := by
  decide

/-- Claim C6, amended: whenever the evidence branch is not taken, teardown
is exactly the release sequence; releases are attempted in the order page,
context, browser; a null handle produces no close attempt; with no handle
ever established the release phase is a raise-free no-op for every driver
behavior; but when the capture guard holds and the page handle is null (as
after a setup failure, which leaves the status failed), teardown raises
"No page available on World" with no release attempted. -/
theorem c6_release_order_null_noop (d : Driver) (s : Scenario) (w : CustomWorld) :
    (shouldCapture s.result = false → After d s w = closeResources d w) ∧
    (closeResources d w).1.Sublist
      [Event.closePage, Event.closeContext, Event.closeBrowser] ∧
    (w.page = none → Event.closePage ∉ (closeResources d w).1) ∧
    (w.context = none → Event.closeContext ∉ (closeResources d w).1) ∧
    (w.browser = none → Event.closeBrowser ∉ (closeResources d w).1) ∧
    (w.page = none → w.context = none → w.browser = none →
      closeResources d w = ([], w, none)) ∧
    (shouldCapture s.result = true → w.page = none →
      After d s w = ([], w, some "No page available on World")) := by
  refine ⟨fun hcap => After_of_not_failed d s w hcap, closeResources_sublist d w,
    ?_, ?_, ?_, fun hp hc hb => closeResources_of_all_none d w hp hc hb, ?_⟩
  · intro hp hmem
    obtain ⟨t1, t2, t3, heq, s1, s2, s3, e1, e2, e3⟩ := closeResources_decomp d w
    rw [heq] at hmem
    rcases List.mem_append.mp hmem with hm | hm
    · rcases List.mem_append.mp hm with hm | hm
      · rw [e1 hp] at hm
        exact absurd hm (List.not_mem_nil _)
      · exact absurd (s2.subset hm) (by decide)
    · exact absurd (s3.subset hm) (by decide)
  · intro hc hmem
    obtain ⟨t1, t2, t3, heq, s1, s2, s3, e1, e2, e3⟩ := closeResources_decomp d w
    rw [heq] at hmem
    rcases List.mem_append.mp hmem with hm | hm
    · rcases List.mem_append.mp hm with hm | hm
      · exact absurd (s1.subset hm) (by decide)
      · rw [e2 hc] at hm
        exact absurd hm (List.not_mem_nil _)
    · exact absurd (s3.subset hm) (by decide)
  · intro hb hmem
    obtain ⟨t1, t2, t3, heq, s1, s2, s3, e1, e2, e3⟩ := closeResources_decomp d w
    rw [heq] at hmem
    rcases List.mem_append.mp hmem with hm | hm
    · rcases List.mem_append.mp hm with hm | hm
      · exact absurd (s1.subset hm) (by decide)
      · exact absurd (s2.subset hm) (by decide)
    · rw [e3 hb] at hm
      exact absurd hm (List.not_mem_nil _)
  · intro hcap hp
    have ht := takeAndAttachScreenshot_of_none d w
      (s.pickle.name ++ "-failure-screenshot.png") hp
    rw [After_of_capture_error d s w "No page available on World" hcap
      (by rw [ht]), ht]

/-- Witness for the amended C6: a result-absent teardown on a
never-initialized world is a raise-free no-op, and a failed-status teardown
on the same world raises the null-page error with no release attempted. -/
theorem c6_release_order_null_noop_witness :
    After errDriver noResultScenario emptyWorld =
      closeResources errDriver emptyWorld ∧
    closeResources errDriver emptyWorld = ([], emptyWorld, none) ∧
    After errDriver failedScenario emptyWorld =
      ([], emptyWorld, some "No page available on World") := by
  refine ⟨(c6_release_order_null_noop errDriver noResultScenario emptyWorld).1
      (by decide),
    (c6_release_order_null_noop errDriver noResultScenario
      emptyWorld).2.2.2.2.2.1 rfl rfl rfl,
    (c6_release_order_null_noop errDriver failedScenario
      emptyWorld).2.2.2.2.2.2 (by decide) rfl⟩

theorem Before_of_launch_error (d : Driver) (env : Env) (w : CustomWorld) (e : Err)
    (hl : d.launchResult (browserNameOf env) (headlessOf env) = Except.error e) :
    Before d env w =
      ([Event.launch (browserNameOf env) (headlessOf env)], w, some e) := by
  simp only [Before, hl]

theorem Before_of_context_error (d : Driver) (env : Env) (w : CustomWorld)
    (b : BrowserHandle) (e : Err)
    (hl : d.launchResult (browserNameOf env) (headlessOf env) = Except.ok b)
    (hc : d.newContextResult b = Except.error e) :
    Before d env w =
      ([Event.launch (browserNameOf env) (headlessOf env)],
       { w with browser := some b }, some e) := by
  simp only [Before, hl, hc]

theorem Before_of_page_error (d : Driver) (env : Env) (w : CustomWorld)
    (b : BrowserHandle) (c : ContextHandle) (e : Err)
    (hl : d.launchResult (browserNameOf env) (headlessOf env) = Except.ok b)
    (hc : d.newContextResult b = Except.ok c)
    (hpg : d.newPageResult c = Except.error e) :
    Before d env w =
      ([Event.launch (browserNameOf env) (headlessOf env)],
       { w with browser := some b, context := some c }, some e) := by
  simp only [Before, hl, hc, hpg]

theorem Before_of_ok (d : Driver) (env : Env) (w : CustomWorld)
    (b : BrowserHandle) (c : ContextHandle) (p : PageHandle)
    (hl : d.launchResult (browserNameOf env) (headlessOf env) = Except.ok b)
    (hc : d.newContextResult b = Except.ok c)
    (hpg : d.newPageResult c = Except.ok p) :
    Before d env w =
      ([Event.launch (browserNameOf env) (headlessOf env)],
       { w with browser := some b, context := some c, page := some p }, none) := by
  simp only [Before, hl, hc, hpg]

/-- Claim C7: a freshly constructed world has all three handles null, and
whenever the Before hook completes without an uncaught error, the resulting
world's browser, context and page handles are all non-null (each field
holds at most one handle by construction). -/
theorem c7_null_before_setup_nonnull_after (a : Bool) (d : Driver) (env : Env)
    (w : CustomWorld) (hok : (Before d env w).2.2 = none) :
    ((CustomWorld.construct a).browser = none ∧
      (CustomWorld.construct a).context = none ∧
      (CustomWorld.construct a).page = none) ∧
    ((Before d env w).2.1.browser ≠ none ∧
      (Before d env w).2.1.context ≠ none ∧
      (Before d env w).2.1.page ≠ none) := by
  refine ⟨⟨rfl, rfl, rfl⟩, ?_⟩
  cases hl : d.launchResult (browserNameOf env) (headlessOf env) with
  | error e =>
    rw [Before_of_launch_error d env w e hl] at hok
    simp at hok
  | ok b =>
    cases hc : d.newContextResult b with
    | error e =>
      rw [Before_of_context_error d env w b e hl hc] at hok
      simp at hok
    | ok c =>
      cases hpg : d.newPageResult c with
      | error e =>
        rw [Before_of_page_error d env w b c e hl hc hpg] at hok
        simp at hok
      | ok p =>
        rw [Before_of_ok d env w b c p hl hc hpg]
        exact ⟨by simp, by simp, by simp⟩

/-- Witness for C7: a successful setup from a fresh world. -/
theorem c7_null_before_setup_nonnull_after_witness :
    ((CustomWorld.construct true).browser = none ∧
      (CustomWorld.construct true).context = none ∧
      (CustomWorld.construct true).page = none) ∧
    ((Before okDriver { BROWSER := none, HEADLESS := none }
        (CustomWorld.construct true)).2.1.browser ≠ none ∧
      (Before okDriver { BROWSER := none, HEADLESS := none }
        (CustomWorld.construct true)).2.1.context ≠ none ∧
      (Before okDriver { BROWSER := none, HEADLESS := none }
        (CustomWorld.construct true)).2.1.page ≠ none) :=
  c7_null_before_setup_nonnull_after true okDriver
    { BROWSER := none, HEADLESS := none } (CustomWorld.construct true) rfl

/-- Claim C8: for a failed scenario whose page is usable at teardown and
whose attach capability is set, the evidence captured is a screenshot taken
with the fullPage option set, attached with media type "image/png". -/
theorem c8_fullpage_png_attachment (d : Driver) (s : Scenario) (w : CustomWorld)
    (p : PageHandle) (buf : Buffer) (hcap : shouldCapture s.result = true)
    (hp : w.page = some p) (ha : w.attach = true)
    (hshot : d.screenshotResult p true = Except.ok buf)
    (hatt : d.attachResult buf "image/png" = Except.ok ()) :
    (After d s w).1 =
      [Event.screenshot true, Event.attach buf "image/png"] ++
        (closeResources d w).1 := by
  have hx := takeAndAttachScreenshot_ok_with_attach d w p buf
    (s.pickle.name ++ "-failure-screenshot.png") hp ha hshot hatt
  rw [After_of_capture_ok d s w buf hcap (by rw [hx]), hx]

/-- Witness for C8 at a concrete failed scenario. -/
theorem c8_fullpage_png_attachment_witness :
    (After okDriver failedScenario liveWorld).1 =
      [Event.screenshot true, Event.attach [7] "image/png"] ++
        (closeResources okDriver liveWorld).1 :=
  c8_fullpage_png_attachment okDriver failedScenario liveWorld openPage [7]
    (by decide) rfl rfl rfl rfl

/-- Claim C9: when the scenario's result record is absent the guard
short-circuits without touching any status field: the After hook is exactly
the release phase and attaches nothing; and the guard compares the
stringified status lowercased against "failed", so it is case-insensitive. -/
theorem c9_absent_result_skips_capture (d : Driver) (s : Scenario)
    (w : CustomWorld) (h : s.result = none) :
    After d s w = closeResources d w ∧
    attachCount (After d s w).1 = 0 ∧
    shouldCapture none = false ∧
    shouldCapture (some { status := "FAILED" }) = true ∧
    shouldCapture (some { status := "Failed" }) = true ∧
    shouldCapture (some { status := "passed" }) = false := by
  have hcap : shouldCapture s.result = false := by rw [h]; rfl
  refine ⟨After_of_not_failed d s w hcap, ?_, rfl, by decide, by decide, by decide⟩
  rw [After_of_not_failed d s w hcap]
  exact closeResources_attachCount d w

/-- Witness for C9 at a concrete scenario with no result record. -/
theorem c9_absent_result_skips_capture_witness :
    After errDriver noResultScenario closedPageWorld =
      closeResources errDriver closedPageWorld ∧
    attachCount (After errDriver noResultScenario closedPageWorld).1 = 0 ∧
    shouldCapture none = false ∧
    shouldCapture (some { status := "FAILED" }) = true ∧
    shouldCapture (some { status := "Failed" }) = true ∧
    shouldCapture (some { status := "passed" }) = false :=
  c9_absent_result_skips_capture errDriver noResultScenario closedPageWorld rfl

/-- Claim C10: with a non-null page and a successful screenshot, the call
returns the buffer in every successful case; the attach capability is
invoked with that buffer exactly when it is set, and its absence does not
make the call fail. -/
theorem c10_returns_buffer_attach_optional (d : Driver) (w : CustomWorld)
    (p : PageHandle) (buf : Buffer) (name : String) (hp : w.page = some p)
    (hshot : d.screenshotResult p true = Except.ok buf) :
    (w.attach = true → d.attachResult buf "image/png" = Except.ok () →
      w.takeAndAttachScreenshot d name =
        ([Event.screenshot true, Event.attach buf "image/png"], Except.ok buf)) ∧
    (w.attach = false →
      w.takeAndAttachScreenshot d name =
        ([Event.screenshot true], Except.ok buf)) :=
  ⟨fun ha hatt =>
      takeAndAttachScreenshot_ok_with_attach d w p buf name hp ha hshot hatt,
   fun ha =>
      takeAndAttachScreenshot_ok_without_attach d w p buf name hp ha hshot⟩

/-- Witness for C10 with and without the attach capability. -/
theorem c10_returns_buffer_attach_optional_witness :
    liveWorld.takeAndAttachScreenshot okDriver "screenshot.png" =
      ([Event.screenshot true, Event.attach [7] "image/png"], Except.ok [7]) ∧
    liveWorldNoAttach.takeAndAttachScreenshot okDriver "screenshot.png" =
      ([Event.screenshot true], Except.ok [7]) :=
  ⟨(c10_returns_buffer_attach_optional okDriver liveWorld openPage [7]
      "screenshot.png" rfl rfl).1 rfl rfl,
   (c10_returns_buffer_attach_optional okDriver liveWorldNoAttach openPage [7]
      "screenshot.png" rfl rfl).2 rfl⟩

end PlaywrightBdd
